import Mathlib

/-!
Shallow embedding of the query-bot service layer
(`src/plugins/common/services/*.py` and `src/plugins/common/plugin_base.py`).

Python dictionaries are modelled as association lists keyed by `Int`
(QQ user ids and group ids are integers), wall-clock time as `Int`
seconds, random token generation and file persistence as explicit
oracle parameters, and each mutating method as a pure function from
state to (return value, new state).
-/

namespace QueryBot

/-! ### Association-list model of a Python `dict` keyed by `Int` -/

def alookup {α : Type} : List (Int × α) → Int → Option α
  | [], _ => none
  | (k, v) :: rest, u => if k = u then some v else alookup rest u

def aerase {α : Type} : List (Int × α) → Int → List (Int × α)
  | [], _ => []
  | (k, v) :: rest, u => if k = u then aerase rest u else (k, v) :: aerase rest u

/-- `d[k] = v` on a Python dict: any old binding for `k` is replaced. -/
def ainsert {α : Type} (m : List (Int × α)) (u : Int) (v : α) : List (Int × α) :=
  (u, v) :: aerase m u

theorem alookup_aerase_self {α : Type} (m : List (Int × α)) (u : Int) :
    alookup (aerase m u) u = none := by
  induction m with
  | nil => rfl
  | cons p rest ih =>
      obtain ⟨k, v⟩ := p
      by_cases hk : k = u
      · simp [aerase, hk, ih]
      · simp [aerase, alookup, hk, ih]

theorem alookup_ainsert_self {α : Type} (m : List (Int × α)) (u : Int) (v : α) :
    alookup (ainsert m u v) u = some v := by
  simp [ainsert, alookup]

/-! ### `Result` (`src/plugins/common/base.py`)

`Result.__init__` stores `is_success`, the derived `is_failure`,
`value` and `error`. -/

structure Result (α : Type) where
  is_success : Bool
  is_failure : Bool
  value : Option α
  error : Option String
deriving DecidableEq, Repr

def Result.success {α : Type} (v : α) : Result α :=
  ⟨true, false, some v, none⟩

def Result.fail {α : Type} (e : String) : Result α :=
  ⟨false, true, none, some e⟩

/-! ### Token service (`src/plugins/common/services/token.py`)

`TokenService._tokens : Dict[int, TokenInfo]`.  `secrets.token_urlsafe`
is modelled by passing the fresh random string `fresh` in;
`time.time()` by passing the current clock `now` in.
`secrets.compare_digest` agrees with string equality on its result
(its constant-time execution is a timing property, not a functional one). -/

structure TokenInfo where
  token : String
  expire_time : Int
  used : Bool
deriving DecidableEq, Repr

abbrev TokenMap := List (Int × TokenInfo)

namespace TokenService

def TOKEN_EXPIRE_SECONDS : Int := 300

/-- `TokenService.generate_token`: drop any old token for the user, then
store a fresh one expiring `TOKEN_EXPIRE_SECONDS` from now.  Returns the
token string and the new `_tokens` state. -/
def generate_token (m : TokenMap) (user_id : Int) (fresh : String) (now : Int) :
    String × TokenMap :=
  let m1 := aerase m user_id
  (fresh, ainsert m1 user_id ⟨fresh, now + TOKEN_EXPIRE_SECONDS, false⟩)

/-- `TokenService.verify_token`: fails closed on missing record, used
record (deleting it), expired record (deleting it), or value mismatch
(record kept); on success the record is deleted.  Returns the boolean
result and the new `_tokens` state. -/
def verify_token (m : TokenMap) (user_id : Int) (token : String) (now : Int) :
    Bool × TokenMap :=
  match alookup m user_id with
  | none => (false, m)
  | some info =>
      if info.used then (false, aerase m user_id)
      else if now > info.expire_time then (false, aerase m user_id)
      else if ¬ (info.token = token) then (false, m)
      else (true, aerase m user_id)

end TokenService

end QueryBot

namespace QueryBot

/-- Claim C1: `generate_token(u)` followed by `verify_token(u, t)` with the
returned token `t`, within the 5-minute validity window, succeeds; a second
`verify_token(u, t)` with the same token then fails: the successful
verification deleted the record. -/
theorem generate_then_verify_succeeds_exactly_once
    (m : TokenMap) (u : Int) (fresh : String) (tg t1 t2 : Int)
    (h1 : t1 ≤ tg + TokenService.TOKEN_EXPIRE_SECONDS) :
    (TokenService.verify_token (TokenService.generate_token m u fresh tg).2 u
        (TokenService.generate_token m u fresh tg).1 t1).1 = true ∧
    (TokenService.verify_token
        (TokenService.verify_token (TokenService.generate_token m u fresh tg).2 u
            (TokenService.generate_token m u fresh tg).1 t1).2 u
        (TokenService.generate_token m u fresh tg).1 t2).1 = false := by
  have hnot : ¬ (t1 > tg + TokenService.TOKEN_EXPIRE_SECONDS) := by omega
  simp [TokenService.generate_token, TokenService.verify_token, ainsert, alookup,
    aerase, hnot, alookup_aerase_self]

theorem generate_then_verify_succeeds_exactly_once_witness :
    (10 : Int) ≤ 0 + TokenService.TOKEN_EXPIRE_SECONDS ∧
    ((TokenService.verify_token (TokenService.generate_token [] 1 "tok" 0).2 1
        (TokenService.generate_token [] 1 "tok" 0).1 10).1 = true ∧
     (TokenService.verify_token
         (TokenService.verify_token (TokenService.generate_token [] 1 "tok" 0).2 1
             (TokenService.generate_token [] 1 "tok" 0).1 10).2 1
         (TokenService.generate_token [] 1 "tok" 0).1 999).1 = false) :=
  ⟨by decide, generate_then_verify_succeeds_exactly_once [] 1 "tok" 0 10 999 (by decide)⟩

/-- Claim C2: a token verified after its validity window
(`expire_time = issue time + 300`) fails even with the correct value:
the clock check `current_time > expire_time` rejects it before the
value comparison. -/
theorem verify_after_expiry_fails
    (m : TokenMap) (u : Int) (fresh : String) (tg t : Int)
    (h : tg + TokenService.TOKEN_EXPIRE_SECONDS < t) :
    (TokenService.verify_token (TokenService.generate_token m u fresh tg).2 u
        (TokenService.generate_token m u fresh tg).1 t).1 = false := by
  have hgt : t > tg + TokenService.TOKEN_EXPIRE_SECONDS := h
  simp [TokenService.generate_token, TokenService.verify_token, ainsert, alookup, hgt]

theorem verify_after_expiry_fails_witness :
    (0 : Int) + TokenService.TOKEN_EXPIRE_SECONDS < 301 ∧
    (TokenService.verify_token (TokenService.generate_token [] 1 "tok" 0).2 1
        (TokenService.generate_token [] 1 "tok" 0).1 301).1 = false :=
  ⟨by decide, verify_after_expiry_fails [] 1 "tok" 0 301 (by decide)⟩

/-- Claim C10: a value mismatch does not consume the token.  If user `u`
holds an unused, unexpired token, `verify_token` with a wrong value
returns `false` and leaves the `_tokens` state unchanged, and a later
`verify_token` with the right value within the window still succeeds. -/
theorem verify_mismatch_preserves_token
    (m : TokenMap) (u : Int) (info : TokenInfo)
    (hlook : alookup m u = some info) (hused : info.used = false)
    (t1 t2 : Int) (h1 : t1 ≤ info.expire_time) (h2 : t2 ≤ info.expire_time)
    (bad : String) (hne : ¬ (info.token = bad)) :
    TokenService.verify_token m u bad t1 = (false, m) ∧
    (TokenService.verify_token m u info.token t2).1 = true := by
  have hn1 : ¬ (t1 > info.expire_time) := by omega
  have hn2 : ¬ (t2 > info.expire_time) := by omega
  simp [TokenService.verify_token, hlook, hused, hn1, hn2, hne]

theorem verify_mismatch_preserves_token_witness :
    alookup [((1 : Int), TokenInfo.mk "tok" 300 false)] 1 =
      some (TokenInfo.mk "tok" 300 false) ∧
    (TokenInfo.mk "tok" 300 false).used = false ∧
    (5 : Int) ≤ (TokenInfo.mk "tok" 300 false).expire_time ∧
    (6 : Int) ≤ (TokenInfo.mk "tok" 300 false).expire_time ∧
    ¬ ((TokenInfo.mk "tok" 300 false).token = "bad") ∧
    (TokenService.verify_token [((1 : Int), TokenInfo.mk "tok" 300 false)] 1 "bad" 5 =
        (false, [((1 : Int), TokenInfo.mk "tok" 300 false)]) ∧
     (TokenService.verify_token [((1 : Int), TokenInfo.mk "tok" 300 false)] 1
         (TokenInfo.mk "tok" 300 false).token 6).1 = true) :=
  ⟨by decide, by decide, by decide, by decide, by decide,
   verify_mismatch_preserves_token [((1 : Int), TokenInfo.mk "tok" 300 false)] 1
     (TokenInfo.mk "tok" 300 false) (by decide) (by decide) 5 6 (by decide) (by decide)
     "bad" (by decide)⟩

end QueryBot

namespace QueryBot

/-! ### Ban service (`src/plugins/common/services/ban.py`)

`BanService._banned_users : Set[int]` is modelled as a duplicate-free
`List Int`.  `_save_banned_list` performs file I/O; its outcome is the
oracle parameter `save : Result Unit` (what the real call would have
returned for this write). -/

abbrev BannedSet := List Int

namespace BanService

def is_banned (s : BannedSet) (user_id : Int) : Bool :=
  s.contains user_id

/-- `BanService.ban`: already present gives `success False`; otherwise the
in-memory set is mutated first, then the whole list is persisted, and the
`Result` reflects the save outcome. -/
def ban (s : BannedSet) (user_id : Int) (save : Result Unit) :
    Result Bool × BannedSet :=
  if s.contains user_id then (Result.success false, s)
  else
    let s1 := user_id :: s
    if save.is_success then (Result.success true, s1)
    else (Result.fail ((save.error).getD "保存失败"), s1)

/-- `BanService.unban`: not present gives `success False`; otherwise the id
is discarded from the in-memory set first, then persisted. -/
def unban (s : BannedSet) (user_id : Int) (save : Result Unit) :
    Result Bool × BannedSet :=
  if ¬ s.contains user_id then (Result.success false, s)
  else
    let s1 := s.filter (fun x => ¬ (x = user_id))
    if save.is_success then (Result.success true, s1)
    else (Result.fail ((save.error).getD "保存失败"), s1)

end BanService

/-- Claim C3: with persistence succeeding, `ban(x)` makes `is_banned(x)`
true, `unban(x)` makes it false, and for `x` not yet banned the first
`ban(x)` returns `success True` (newly added) while an immediate second
`ban(x)` returns `success False` (already present) and leaves the banned
set unchanged. -/
theorem ban_unban_is_banned_spec
    (s : BannedSet) (x : Int) (save : Result Unit)
    (hok : save.is_success = true) :
    BanService.is_banned (BanService.ban s x save).2 x = true ∧
    BanService.is_banned (BanService.unban s x save).2 x = false ∧
    (BanService.is_banned s x = false →
      (BanService.ban s x save).1 = Result.success true ∧
      (BanService.ban (BanService.ban s x save).2 x save).1 = Result.success false ∧
      (BanService.ban (BanService.ban s x save).2 x save).2 =
        (BanService.ban s x save).2) := by
  refine ⟨?_, ?_, ?_⟩
  · by_cases hmem : x ∈ s
    · simp [BanService.ban, BanService.is_banned, hmem]
    · simp [BanService.ban, BanService.is_banned, hmem, hok]
  · by_cases hmem : x ∈ s
    · simp [BanService.unban, BanService.is_banned, hmem, hok, List.mem_filter]
    · simp [BanService.unban, BanService.is_banned, hmem]
  · intro hnot
    simp only [BanService.is_banned, List.contains_eq_any_beq] at hnot
    have hmem : x ∉ s := by
      intro hx
      simp [List.any_eq_true] at hnot
      exact hnot x hx rfl
    simp [BanService.ban, BanService.is_banned, hmem, hok]

theorem ban_unban_is_banned_spec_witness :
    (Result.success ()).is_success = true ∧
    (BanService.is_banned (BanService.ban [2] 7 (Result.success ())).2 7 = true ∧
     BanService.is_banned (BanService.unban [2] 7 (Result.success ())).2 7 = false ∧
     (BanService.is_banned [2] 7 = false →
       (BanService.ban [2] 7 (Result.success ())).1 = Result.success true ∧
       (BanService.ban (BanService.ban [2] 7 (Result.success ())).2 7
           (Result.success ())).1 = Result.success false ∧
       (BanService.ban (BanService.ban [2] 7 (Result.success ())).2 7
           (Result.success ())).2 = (BanService.ban [2] 7 (Result.success ())).2)) :=
  ⟨by decide, ban_unban_is_banned_spec [2] 7 (Result.success ()) (by decide)⟩

/-- Claim C9: `ban` is not atomic on error.  For `x` not banned, when the
persistence write fails the call reports failure, yet the in-memory set
was already mutated: `is_banned(x)` is true afterwards. -/
theorem ban_mutates_memory_even_on_save_failure
    (s : BannedSet) (x : Int) (save : Result Unit)
    (hfail : save.is_success = false)
    (hnot : BanService.is_banned s x = false) :
    (BanService.ban s x save).1.is_success = false ∧
    BanService.is_banned (BanService.ban s x save).2 x = true := by
  simp only [BanService.is_banned, List.contains_eq_any_beq] at hnot
  have hmem : x ∉ s := by
    intro hx
    simp [List.any_eq_true] at hnot
    exact hnot x hx rfl
  simp [BanService.ban, BanService.is_banned, hmem, hfail, Result.fail]

theorem ban_mutates_memory_even_on_save_failure_witness :
    (Result.fail "io error" : Result Unit).is_success = false ∧
    BanService.is_banned [2] 7 = false ∧
    ((BanService.ban [2] 7 (Result.fail "io error")).1.is_success = false ∧
     BanService.is_banned (BanService.ban [2] 7 (Result.fail "io error")).2 7 = true) :=
  ⟨by decide, by decide,
   ban_mutates_memory_even_on_save_failure [2] 7 (Result.fail "io error")
     (by decide) (by decide)⟩

end QueryBot

namespace QueryBot

/-! ### Game service (`src/plugins/common/services/game.py`)

`GameServiceBase._games : Dict[int, T]` with `T` bounded by `GameState`.
Only the base-class fields matter to the lifecycle operations, so the
state is modelled by `group_id` and `is_active` (the game-specific
fields and `metadata` do not influence them).  `create_game` is
abstract; `start_game` takes the created state as a parameter. -/

structure GameState where
  group_id : Int
  is_active : Bool
deriving DecidableEq, Repr

abbrev GamesMap := List (Int × GameState)

namespace GameServiceBase

def has_active_game (m : GamesMap) (group_id : Int) : Bool :=
  match alookup m group_id with
  | none => false
  | some game => game.is_active

def get_game (m : GamesMap) (group_id : Int) : Option GameState :=
  alookup m group_id

/-- `GameServiceBase.end_game`: absent group returns `false` unchanged;
otherwise the stored object is mutated to `is_active = False` and the
entry is deleted.  The third component is the final value of the mutated
game object (what any alias still holding it observes). -/
def end_game (m : GamesMap) (group_id : Int) :
    Bool × GamesMap × Option GameState :=
  match alookup m group_id with
  | none => (false, m, none)
  | some game => (true, aerase m group_id, some { game with is_active := false })

/-- `GameServiceBase.start_game`: if an entry exists it is first ended via
`end_game`, then the freshly created state is stored. -/
def start_game (m : GamesMap) (group_id : Int) (created : GameState) :
    Result GameState × GamesMap :=
  let m1 := if (alookup m group_id).isSome then (end_game m group_id).2.1 else m
  (Result.success created, ainsert m1 group_id created)

end GameServiceBase

/-- Reachable-state invariant of `GameServiceBase._games`: every stored
game is active.  `end_game` deletes the entry it deactivates and both
concrete `create_game` implementations in the repository
(`high_noon`, `math_soup`) build states with the default
`is_active = True`, so every state produced by the service satisfies it. -/
def GamesActiveInv (m : GamesMap) : Prop :=
  ∀ g game, alookup m g = some game → game.is_active = true

theorem gamesActiveInv_nil : GamesActiveInv [] := by
  intro g game h
  simp [alookup] at h

theorem alookup_aerase_ne {α : Type} (m : List (Int × α)) (u g : Int)
    (hne : ¬ u = g) : alookup (aerase m u) g = alookup m g := by
  have hgu : ¬ g = u := fun h => hne h.symm
  induction m with
  | nil => rfl
  | cons p rest ih =>
      obtain ⟨k, w⟩ := p
      by_cases hk : k = u
      · have hkg : ¬ k = g := by rw [hk]; exact hne
        simp [aerase, alookup, hk, hkg, hne, hgu, ih]
      · by_cases hg : k = g
        · simp [aerase, alookup, hk, hg, hne, hgu]
        · simp [aerase, alookup, hk, hg, hne, hgu, ih]

theorem alookup_aerase {α : Type} (m : List (Int × α)) (u g : Int) (v : α)
    (h : alookup (aerase m u) g = some v) : alookup m g = some v := by
  by_cases hug : u = g
  · rw [hug] at h
    simp [alookup_aerase_self] at h
  · rw [alookup_aerase_ne m u g hug] at h
    exact h

theorem gamesActiveInv_end_game (m : GamesMap) (g : Int)
    (hinv : GamesActiveInv m) :
    GamesActiveInv (GameServiceBase.end_game m g).2.1 := by
  unfold GameServiceBase.end_game
  cases hlook : alookup m g with
  | none => simpa using hinv
  | some game =>
      intro g1 game1 h1
      exact hinv g1 game1 (alookup_aerase m g g1 game1 h1)

theorem gamesActiveInv_start_game (m : GamesMap) (g : Int)
    (created : GameState) (hactive : created.is_active = true)
    (hinv : GamesActiveInv m) :
    GamesActiveInv (GameServiceBase.start_game m g created).2 := by
  unfold GameServiceBase.start_game
  intro g1 game1 h1
  simp only [ainsert] at h1
  by_cases hg : g = g1
  · simp [alookup, hg] at h1
    rw [← h1]
    exact hactive
  · simp only [alookup, if_neg hg] at h1
    have h2 := alookup_aerase _ g g1 game1 h1
    by_cases hsome : (alookup m g).isSome
    · simp only [if_pos hsome] at h2
      exact gamesActiveInv_end_game m g hinv g1 game1
        (by simpa only [if_pos hsome] using alookup_aerase _ g g1 game1 h1)
    · simp only [if_neg hsome] at h2
      exact hinv g1 game1 h2

/-- Claim C4: on any state satisfying the reachable-state invariant
(stored games are active), `end_game(g)` removes the entry for `g` and
marks the stored object inactive, returns `false` exactly when
`has_active_game(g)` is false at the time of the call, and returns
`true` exactly when an active game was present and has been ended. -/
theorem end_game_spec (m : GamesMap) (g : Int) (hinv : GamesActiveInv m) :
    alookup (GameServiceBase.end_game m g).2.1 g = none ∧
    (∀ fin, (GameServiceBase.end_game m g).2.2 = some fin →
      fin.is_active = false) ∧
    ((GameServiceBase.end_game m g).1 = false ↔
      GameServiceBase.has_active_game m g = false) ∧
    ((GameServiceBase.end_game m g).1 = true ↔
      GameServiceBase.has_active_game m g = true) := by
  unfold GameServiceBase.end_game GameServiceBase.has_active_game
  cases hlook : alookup m g with
  | none => simp [hlook]
  | some game =>
      have hactive := hinv g game hlook
      simp [hlook, hactive, alookup_aerase_self]

end QueryBot

namespace QueryBot

/-! ### Chat service: cooldown (`src/plugins/common/services/chat.py`)

`ChatService._cooldown : Dict[int, float]` maps a group to the time of
the last `set_cooldown`; `config.random_reply_cooldown` (validated
`gt=0` in `config.py`) is the parameter `cooldown_seconds`. -/

abbrev CooldownMap := List (Int × Int)

namespace ChatService

/-- `ChatService.check_cooldown`: true when no entry exists, otherwise
true exactly when `now - last >= cooldown_seconds`. -/
def check_cooldown (m : CooldownMap) (cooldown_seconds : Int) (group_id : Int)
    (now : Int) : Bool :=
  match alookup m group_id with
  | none => true
  | some last => decide (cooldown_seconds ≤ now - last)

/-- `ChatService.set_cooldown`: stores the current time for the group. -/
def set_cooldown (m : CooldownMap) (group_id : Int) (now : Int) : CooldownMap :=
  ainsert m group_id now

end ChatService

/-- Claim C5: with a positive configured cooldown, `check_cooldown(g)` is
true while no `set_cooldown(g)` has happened (no entry for `g`), false
immediately after `set_cooldown(g)`, and true again once the interval
has elapsed. -/
theorem cooldown_gate (m : CooldownMap) (cd g t0 t1 : Int)
    (hcd : 0 < cd) (hfresh : alookup m g = none) (helapsed : t0 + cd ≤ t1) :
    ChatService.check_cooldown m cd g t0 = true ∧
    ChatService.check_cooldown (ChatService.set_cooldown m g t0) cd g t0 = false ∧
    ChatService.check_cooldown (ChatService.set_cooldown m g t0) cd g t1 = true := by
  refine ⟨?_, ?_, ?_⟩
  · simp [ChatService.check_cooldown, hfresh]
  · simp only [ChatService.check_cooldown, ChatService.set_cooldown,
      alookup_ainsert_self]
    simp
    omega
  · simp only [ChatService.check_cooldown, ChatService.set_cooldown,
      alookup_ainsert_self]
    simp
    omega

theorem cooldown_gate_witness :
    (0 : Int) < 30 ∧ alookup ([] : CooldownMap) 9 = none ∧
    (100 : Int) + 30 ≤ 130 ∧
    (ChatService.check_cooldown [] 30 9 100 = true ∧
     ChatService.check_cooldown (ChatService.set_cooldown [] 9 100) 30 9 100 = false ∧
     ChatService.check_cooldown (ChatService.set_cooldown [] 9 100) 30 9 130 = true) :=
  ⟨by decide, by decide, by decide,
   cooldown_gate [] 30 9 100 130 (by decide) (by decide) (by decide)⟩

/-! ### Command dispatch wrapper (`src/plugins/common/plugin_base.py`)

`PluginBase._create_handler` wraps the plugin's `handle`:
ban check (`_check_permission`), then feature-flag check
(`_check_feature`), then argument extraction, then `handle`.
The evaluation order is made observable by recording the list of steps
the handler actually performs before terminating. -/

inductive DispatchStep where
  | banCheck
  | featureCheck
  | extractArgs
  | invokeHandle
deriving DecidableEq, Repr

inductive DispatchOutcome where
  | finishMessage (msg : String)
  | handled (args : String)
deriving DecidableEq, Repr

/-- The dispatch environment: `banned` is `BanService.is_banned` at the
time of the event, `feature_enabled` is `_check_feature()`'s result. -/
structure DispatchEnv where
  banned : Int → Bool
  feature_enabled : Bool

/-- The handler built by `PluginBase._create_handler`, as a function of
the sender and raw argument text, returning the steps executed and the
terminal outcome. -/
def commandDispatch (env : DispatchEnv) (user_id : Int) (raw : String) :
    List DispatchStep × DispatchOutcome :=
  if env.banned user_id then
    ([DispatchStep.banCheck], DispatchOutcome.finishMessage "笨蛋,你的账号被拉黑了!")
  else if env.feature_enabled = false then
    ([DispatchStep.banCheck, DispatchStep.featureCheck],
      DispatchOutcome.finishMessage "笨蛋,这个功能被关掉了!")
  else
    ([DispatchStep.banCheck, DispatchStep.featureCheck, DispatchStep.extractArgs,
      DispatchStep.invokeHandle],
      DispatchOutcome.handled raw.trim)

/-- Claim C7: a banned sender makes the command dispatch wrapper emit the
fixed "banned" rejection and terminate at once: the trace is only the
ban check, so the feature-flag check never runs and `handle` is never
invoked. -/
theorem banned_sender_short_circuits (env : DispatchEnv) (u : Int) (raw : String)
    (hban : env.banned u = true) :
    commandDispatch env u raw =
      ([DispatchStep.banCheck],
        DispatchOutcome.finishMessage "笨蛋,你的账号被拉黑了!") ∧
    ¬ DispatchStep.featureCheck ∈ (commandDispatch env u raw).1 ∧
    ¬ DispatchStep.invokeHandle ∈ (commandDispatch env u raw).1 := by
  refine ⟨by simp [commandDispatch, hban], ?_, ?_⟩
  · simp [commandDispatch, hban]
  · simp [commandDispatch, hban]

theorem banned_sender_short_circuits_witness :
    (DispatchEnv.mk (fun _ => true) true).banned 3 = true ∧
    (commandDispatch (DispatchEnv.mk (fun _ => true) true) 3 " args " =
      ([DispatchStep.banCheck],
        DispatchOutcome.finishMessage "笨蛋,你的账号被拉黑了!") ∧
     ¬ DispatchStep.featureCheck ∈
        (commandDispatch (DispatchEnv.mk (fun _ => true) true) 3 " args ").1 ∧
     ¬ DispatchStep.invokeHandle ∈
        (commandDispatch (DispatchEnv.mk (fun _ => true) true) 3 " args ").1) :=
  ⟨rfl, banned_sender_short_circuits (DispatchEnv.mk (fun _ => true) true) 3
    " args " rfl⟩

end QueryBot

namespace QueryBot

theorem end_game_spec_witness :
    GamesActiveInv [((5 : Int), GameState.mk 5 true)] ∧
    (alookup (GameServiceBase.end_game [((5 : Int), GameState.mk 5 true)] 5).2.1 5 =
        none ∧
     (∀ fin, (GameServiceBase.end_game [((5 : Int), GameState.mk 5 true)] 5).2.2 =
        some fin → fin.is_active = false) ∧
     ((GameServiceBase.end_game [((5 : Int), GameState.mk 5 true)] 5).1 = false ↔
       GameServiceBase.has_active_game [((5 : Int), GameState.mk 5 true)] 5 = false) ∧
     ((GameServiceBase.end_game [((5 : Int), GameState.mk 5 true)] 5).1 = true ↔
       GameServiceBase.has_active_game [((5 : Int), GameState.mk 5 true)] 5 = true)) := by
  have hinv : GamesActiveInv [((5 : Int), GameState.mk 5 true)] := by
    intro g game h
    by_cases hg : (5 : Int) = g
    · simp [alookup, hg] at h
      simp [← h]
    · simp [alookup, hg] at h
  exact ⟨hinv, end_game_spec [((5 : Int), GameState.mk 5 true)] 5 hinv⟩

/-! ### Chat service: history (`src/plugins/common/services/chat.py`)

`ChatService._history : Dict[int, Deque[ChatMessage]]` with
`deque(maxlen=config.max_history_per_group)`.  The CQ-code cleaning of
`record_message` is a pure transform of the `message` string applied
before the entry is built; entries are passed here already formed, which
does not affect ordering or capacity. -/

structure ChatMessage where
  timestamp : Int
  user_id : Int
  username : String
  message : String
  is_bot : Bool
deriving DecidableEq, Repr

/-- `collections.deque(maxlen=cap).append`: append on the right and,
once the capacity is exceeded, discard from the left. -/
def dequeAppend (cap : Nat) (h : List ChatMessage) (msg : ChatMessage) :
    List ChatMessage :=
  if cap < (h ++ [msg]).length then
    (h ++ [msg]).drop ((h ++ [msg]).length - cap)
  else h ++ [msg]

abbrev HistoryMap := List (Int × List ChatMessage)

namespace ChatService

/-- `ChatService.record_message`: `_get_or_create_history(group_id)`
(fresh empty deque for an unseen group) followed by `history.append`. -/
def record_message (m : HistoryMap) (cap : Nat) (group_id : Int)
    (entry : ChatMessage) : HistoryMap :=
  let h := (alookup m group_id).getD []
  ainsert m group_id (dequeAppend cap h entry)

/-- Python `messages[-limit:] if len(messages) > limit else messages`.
For `limit = 0` the slice `[-0:]` is `[0:]`, i.e. the whole list. -/
def pyLastSlice (l : List ChatMessage) (limit : Nat) : List ChatMessage :=
  if limit < l.length then
    if limit = 0 then l else l.drop (l.length - limit)
  else l

/-- `ChatService.get_messages`: empty for an unseen group, otherwise the
(optionally bot-filtered) history cut down by the tail slice. -/
def get_messages (m : HistoryMap) (group_id : Int) (limit : Nat)
    (include_bot : Bool) : List ChatMessage :=
  match alookup m group_id with
  | none => []
  | some h =>
      let msgs := if include_bot then h else h.filter (fun x => !x.is_bot)
      pyLastSlice msgs limit

end ChatService

theorem dequeAppend_eq_drop (cap : Nat) (h : List ChatMessage)
    (msg : ChatMessage) :
    dequeAppend cap h msg = (h ++ [msg]).drop ((h ++ [msg]).length - cap) := by
  unfold dequeAppend
  split
  · rfl
  · next hle =>
      have hz : (h ++ [msg]).length - cap = 0 := by omega
      rw [hz, List.drop_zero]

theorem length_dequeAppend_le (cap : Nat) (h : List ChatMessage)
    (msg : ChatMessage) (hh : h.length ≤ cap) :
    (dequeAppend cap h msg).length ≤ cap := by
  rw [dequeAppend_eq_drop]
  simp only [List.length_drop]
  omega

theorem foldl_dequeAppend (cap : Nat) (hcap : 0 < cap) (ms : List ChatMessage)
    (h0 : List ChatMessage) (hh : h0.length ≤ cap) :
    ms.foldl (dequeAppend cap) h0 = (h0 ++ ms).drop ((h0 ++ ms).length - cap) := by
  induction ms generalizing h0 with
  | nil =>
      have hz : h0.length - cap = 0 := by omega
      simp [hz]
  | cons x xs ih =>
      rw [List.foldl_cons,
        ih (dequeAppend cap h0 x) (length_dequeAppend_le cap h0 x hh),
        dequeAppend_eq_drop]
      have hk : (h0 ++ [x]).length - cap ≤ (h0 ++ [x]).length := by omega
      rw [← List.drop_append_of_le_length hk, List.drop_drop]
      have he : (h0 ++ [x]) ++ xs = h0 ++ x :: xs := by simp
      rw [he]
      congr 1
      have hl1 : (h0 ++ [x]).length = h0.length + 1 := by
        simp
      have hl2 : (h0 ++ x :: xs).length = h0.length + xs.length + 1 := by
        simp
        omega
      simp only [List.length_drop, hl1, hl2]
      omega

end QueryBot

namespace QueryBot

theorem alookup_fold_record (cap : Nat) (g : Int) (ms : List ChatMessage)
    (m0 : HistoryMap) :
    alookup (ms.foldl (fun m e => ChatService.record_message m cap g e) m0) g =
      if ms = [] then alookup m0 g
      else some (ms.foldl (dequeAppend cap) ((alookup m0 g).getD [])) := by
  induction ms generalizing m0 with
  | nil => simp
  | cons x xs ih =>
      rw [List.foldl_cons, ih]
      by_cases hxs : xs = []
      · simp [hxs, ChatService.record_message, alookup_ainsert_self]
      · simp [hxs, ChatService.record_message, alookup_ainsert_self]

theorem pyLastSlice_pos (l : List ChatMessage) (n : Nat) (hn : 1 ≤ n) :
    ChatService.pyLastSlice l n = l.drop (l.length - n) := by
  unfold ChatService.pyLastSlice
  by_cases hlt : n < l.length
  · have hnz : ¬ n = 0 := by omega
    simp [hlt, hnz]
  · have hz : l.length - n = 0 := by omega
    simp [hlt, hz]

def cmsgA : ChatMessage := ⟨0, 1, "a", "hello", false⟩

def cmsgB : ChatMessage := ⟨1, 2, "b", "world", false⟩

def cmsgC : ChatMessage := ⟨2, 3, "c", "beep", true⟩

/-- Claim C6 counterexample: with one stored message, `get_messages` at
limit `0` returns that message — strictly more than `min 0 1 = 0`
entries — because Python's `messages[-0:]` slice is the whole list. -/
theorem get_messages_limit_zero_counterexample :
    (ChatService.get_messages [((5 : Int), [cmsgA])] 5 0 false).length = 1 ∧
    ¬ (ChatService.get_messages [((5 : Int), [cmsgA])] 5 0 false).length ≤
        min 0 [cmsgA].length := by decide

/-- Claim C6 (amended: the retrieval bound holds for limits `n ≥ 1`;
at `n = 0` Python's `[-0:]` slice returns the whole stored history, see
the counterexample): per-group chat history is FIFO-bounded — recording
any message sequence into a fresh group stores exactly the last `cap` of
them, oldest evicted first, order preserved — and `get_messages` with
limit `n ≥ 1` returns exactly the last `min n stored` entries of the
(optionally bot-filtered) history, oldest to newest, most-recent last. -/
theorem chat_history_fifo_bounded (cap n : Nat) (hcap : 0 < cap) (hn : 1 ≤ n)
    (ms : List ChatMessage) (g : Int) (m0 : HistoryMap) (include_bot : Bool)
    (hfresh : alookup m0 g = none) :
    (alookup (ms.foldl (fun m e => ChatService.record_message m cap g e) m0) g).getD []
        = ms.drop (ms.length - cap) ∧
    ChatService.get_messages
        (ms.foldl (fun m e => ChatService.record_message m cap g e) m0) g n include_bot
      = (if include_bot then ms.drop (ms.length - cap)
         else (ms.drop (ms.length - cap)).filter (fun x => !x.is_bot)).drop
          ((if include_bot then ms.drop (ms.length - cap)
            else (ms.drop (ms.length - cap)).filter (fun x => !x.is_bot)).length - n) ∧
    (ChatService.get_messages
        (ms.foldl (fun m e => ChatService.record_message m cap g e) m0) g
        n include_bot).length
      = min n (if include_bot then ms.drop (ms.length - cap)
               else (ms.drop (ms.length - cap)).filter (fun x => !x.is_bot)).length := by
  have hstored := alookup_fold_record cap g ms m0
  by_cases hms : ms = []
  · subst hms
    simp only [List.foldl_nil, if_pos rfl] at hstored
    refine ⟨?_, ?_, ?_⟩
    · simp [hfresh]
    · simp [ChatService.get_messages, hfresh]
    · simp [ChatService.get_messages, hfresh]
  · rw [if_neg hms, hfresh, Option.getD_none] at hstored
    have hfold := foldl_dequeAppend cap hcap ms [] (by simp)
    simp only [List.nil_append] at hfold
    refine ⟨?_, ?_, ?_⟩
    · rw [hstored, hfold]
      rfl
    · simp only [ChatService.get_messages, hstored, hfold]
      rw [pyLastSlice_pos _ n hn]
    · simp only [ChatService.get_messages, hstored, hfold]
      rw [pyLastSlice_pos _ n hn]
      simp only [List.length_drop]
      omega

theorem chat_history_fifo_bounded_witness :
    (0 : Nat) < 2 ∧ (1 : Nat) ≤ 1 ∧ alookup ([] : HistoryMap) 5 = none ∧
    ((alookup ([cmsgA, cmsgB, cmsgC].foldl
          (fun m e => ChatService.record_message m 2 5 e) []) 5).getD []
        = [cmsgA, cmsgB, cmsgC].drop ([cmsgA, cmsgB, cmsgC].length - 2) ∧
     ChatService.get_messages
        ([cmsgA, cmsgB, cmsgC].foldl
          (fun m e => ChatService.record_message m 2 5 e) []) 5 1 false
       = (if false then [cmsgA, cmsgB, cmsgC].drop ([cmsgA, cmsgB, cmsgC].length - 2)
          else ([cmsgA, cmsgB, cmsgC].drop
              ([cmsgA, cmsgB, cmsgC].length - 2)).filter (fun x => !x.is_bot)).drop
         ((if false then [cmsgA, cmsgB, cmsgC].drop ([cmsgA, cmsgB, cmsgC].length - 2)
           else ([cmsgA, cmsgB, cmsgC].drop
               ([cmsgA, cmsgB, cmsgC].length - 2)).filter
             (fun x => !x.is_bot)).length - 1) ∧
     (ChatService.get_messages
        ([cmsgA, cmsgB, cmsgC].foldl
          (fun m e => ChatService.record_message m 2 5 e) []) 5 1 false).length
       = min 1 (if false then
              [cmsgA, cmsgB, cmsgC].drop ([cmsgA, cmsgB, cmsgC].length - 2)
            else ([cmsgA, cmsgB, cmsgC].drop
                ([cmsgA, cmsgB, cmsgC].length - 2)).filter
              (fun x => !x.is_bot)).length) :=
  ⟨by decide, by decide, by decide,
   chat_history_fifo_bounded 2 1 (by decide) (by decide) [cmsgA, cmsgB, cmsgC] 5 []
     false (by decide)⟩

end QueryBot
